import Mathlib

/-!
# configserv: the request handlers, the router and the start-up sequence

A shallow embedding of `src/configserv.go`.

* Go's `map[string]string` is a finite map with unique keys and no order
  (`StrMap`); assignment `m[k] = v` is `Finmap.insert`.
* Go's `error` is the text of its message.
* The packages the program imports (`webutils`, `fileutils`, `codeutils`,
  `net/url`, `os`) are not part of the repository; their functions are the
  fields of `Lib`, over which every theorem is universally quantified.
* Two pieces of net/http decide what a client of this program observes and are
  written out: the response writer (a response is completed with status 200
  when the handler returns without having written one) and the router
  `http.ServeMux`, on which `main` registers the handlers.
* The package-level variables (`verbose`, `robotName`, ...) are the record
  `Globals`: their values once `flag.Parse` has run.
* Everything the program changes outside the response (files, standard logger,
  standard output, router, listener) is the record `Sys`, passed explicitly.
-/

namespace Configserv

/-- Go's `map[string]string`. -/
abbrev StrMap := Finmap (fun _ : String => String)

/-- Files by path, each with its content. -/
abbrev FS := Finmap (fun _ : String => String)

/-! ## The program's settings -/

/-- The package-level variables of lines 39-43. -/
structure Globals where
  verbose : Bool
  robotName : String
  portNum : String
  cfgFile : String
  logFile : String
deriving DecidableEq

/-- The defaults the variables are initialised with (lines 39-43). -/
def Globals.default : Globals :=
  { verbose := false, robotName := "robot", portNum := "3000",
    cfgFile := "remoteSvr.cfg", logFile := "configserv.log" }

/-- Line 47: `const pidFile`. -/
def pidFile : String := "configserv.pid"

/-! ## net/http: request and response writer -/

/-- The parts of `url.URL` a server request carries. -/
structure URL where
  Host : String
  Path : String
  RawQuery : String
deriving DecidableEq

/-- The parts of `http.Request` the program and the router read. -/
structure Request where
  Method : String
  Host : String
  URL : URL
  RemoteAddr : String
deriving DecidableEq

/-- An `http.ResponseWriter`, as `httptest.ResponseRecorder` observes one:
`header` is the live map returned by `w.Header()`; `status` is the code of the
first `WriteHeader`; `sent` is the header map as it stood at that moment (what
goes on the wire: later changes to `header` are not sent); `body` is what has
been written. Headers the server adds of its own accord (`Date`,
`Content-Length`) are not part of the record. -/
structure ResponseWriter where
  header : StrMap
  status : Option Nat
  sent : StrMap
  body : String
deriving DecidableEq

namespace ResponseWriter

/-- The writer a handler is given: nothing set, nothing written. -/
def new : ResponseWriter :=
  { header := ∅, status := none, sent := ∅, body := "" }

/-- The statement `w.Header().Set(k, v)`. The four keys the program sets are
already in canonical MIME form, so the key is stored as given. -/
def setHeader (w : ResponseWriter) (k v : String) : ResponseWriter :=
  { w with header := w.header.insert k v }

/-- The statement `w.WriteHeader(code)`: the first call fixes the status and the
headers sent; a later call is superfluous and ignored. -/
def WriteHeader (w : ResponseWriter) (code : Nat) : ResponseWriter :=
  match w.status with
  | some _ => w
  | none => { w with status := some code, sent := w.header }

/-- The method `w.Write`, through which `fmt.Fprintf(w, text)` goes: writes
the status 200 first when none has been written, then appends to the body. -/
def Write (w : ResponseWriter) (text : String) : ResponseWriter :=
  let w1 := w.WriteHeader 200
  { w1 with body := w1.body ++ text }

/-- What net/http does when the handler has returned: a response is sent in
any case, so a handler that wrote nothing yields status 200, the headers then
in the map and an empty body. -/
def finish (w : ResponseWriter) : ResponseWriter :=
  w.WriteHeader 200

end ResponseWriter

/-- Status codes of `net/http`. -/
def StatusOK : Nat := 200
/-- Status 301. -/
def StatusMovedPermanently : Nat := 301
/-- Status 404. -/
def StatusNotFound : Nat := 404

/-! ## The imported packages -/

/-- The functions of other packages the program calls, and one the router
calls on the host of a request. A function that touches the disk takes the
file system and returns the new one together with its Go result (`(n, err)`
is `Except String Nat`). -/
structure Lib where
  /-- The method `(*url.URL).String`. -/
  URLString : URL → String
  /-- The function `webutils.SimpleParseQuery`. -/
  SimpleParseQuery : String → Except String StrMap
  /-- The function `fileutils.WriteConfigFile`. -/
  WriteConfigFile : String → StrMap → FS → FS × Except String Nat
  /-- The function `codeutils.PrintStringMap`: the lines it prints. -/
  PrintStringMap : StrMap → List String
  /-- The function `os.TempDir`. -/
  TempDir : String
  /-- The call `os.Create(name)` followed by `Close`: the error, if any. -/
  Create : String → FS → FS × Option String
  /-- The call `os.OpenFile(name, O_CREATE|O_WRONLY|O_APPEND, 0644)`. -/
  OpenFile : String → FS → FS × Option String
  /-- The function `fileutils.ReadPIDFile`: the pair `(oldPid, err)`. -/
  ReadPIDFile : String → FS → String × Option String
  /-- The function `fileutils.WritePIDToFile`. -/
  WritePIDToFile : String → FS → FS × Except String Nat
  /-- The function `http.ListenAndServe`: the error with which it returns at
  once when the listener cannot be started, `none` when it serves. -/
  ListenAndServe : String → Option String
  /-- The function `stripHostPort` of net/http: the host without its port. -/
  stripHostPort : String → String

/-! ## Routing table of net/http -/

/-- The two handler functions of the program. -/
inductive HandlerId where
  | handleDefault
  | handleRemoteConfig
deriving DecidableEq, Repr

/-- A `muxEntry`: a pattern and the handler registered for it. -/
structure MuxEntry where
  pattern : String
  h : HandlerId
deriving DecidableEq

/-- The `http.ServeMux` (Go 1.21 and before): `m` holds every registration,
`es` those whose pattern ends in `/`, longest pattern first, `hosts` whether a
pattern names a host. -/
structure ServeMux where
  m : List MuxEntry
  es : List MuxEntry
  hosts : Bool
deriving DecidableEq

/-! ## State outside the response -/

/-- Everything the program changes besides the response. `log` holds the
entries given to the standard logger, `logOutput` the file the logger writes
to (`none`: standard error). `cfgWrites` and `pidWrites` record the
invocations of `WriteConfigFile` and `WritePIDToFile` with their arguments.
`exited` is the exit code once the process has terminated. -/
structure Sys where
  fs : FS
  log : List String
  logOutput : Option String
  stdout : List String
  cfgWrites : List (String × StrMap)
  pidWrites : List String
  mux : ServeMux
  listening : Option String
  exited : Option Nat

namespace Sys

/-- The state a process starts in. -/
def init (fs : FS) : Sys :=
  { fs := fs, log := [], logOutput := none, stdout := [], cfgWrites := [],
    pidWrites := [], mux := { m := [], es := [], hosts := false },
    listening := none, exited := none }

/-- The call `log.Println(...)` / `log.Printf(...)` with the formatted text. -/
def logPrintln (s : Sys) (msg : String) : Sys :=
  { s with log := s.log ++ [msg] }

/-- The call `fmt.Println(...)` with the formatted text. -/
def fmtPrintln (s : Sys) (msg : String) : Sys :=
  { s with stdout := s.stdout ++ [msg] }

/-- The call `log.Fatalln(...)`: the entry is logged, then `os.Exit(1)`. -/
def logFatalln (s : Sys) (msg : String) : Sys :=
  { s.logPrintln msg with exited := some 1 }

end Sys

/-- Lines 50-53, `fatalErr`: the message with the error goes to standard
output and to the logger, and the process exits. -/
def fatalErr (msg : String) (err : String) (s : Sys) : Sys :=
  (s.fmtPrintln (msg ++ " " ++ err)).logFatalln (msg ++ " " ++ err)

/-! ## HTTP functions -/

/-- Lines 59-64, `addStandardHeaders`. -/
def addStandardHeaders (g : Globals) (w : ResponseWriter) : ResponseWriter :=
  (((w.setHeader "Content-Type" "text/plain; charset=utf-8").setHeader
    "Access-Control-Allow-Origin" "*").setHeader
    "Server" "configserv").setHeader
    "X-Robot-Name" g.robotName

/-- Lines 68-72, `handleDefault`. -/
def handleDefault (g : Globals) (w : ResponseWriter) (_r : Request) (s : Sys) :
    ResponseWriter × Sys :=
  let w := addStandardHeaders g w
  let w := w.WriteHeader StatusNotFound
  (w.Write "unknown", s)

/-- The call `fileutils.WriteConfigFile(path, params)` on the state: the call
is recorded and the file system replaced by the one the function leaves. -/
def callWriteConfigFile (lib : Lib) (path : String) (params : StrMap) (s : Sys) :
    Sys × Except String Nat :=
  let res := lib.WriteConfigFile path params s.fs
  ({ s with fs := res.1, cfgWrites := s.cfgWrites ++ [(path, params)] }, res.2)

/-- Lines 75-93, `handleRemoteConfig`. -/
def handleRemoteConfig (lib : Lib) (g : Globals) (w : ResponseWriter) (r : Request)
    (s : Sys) : ResponseWriter × Sys :=
  match lib.SimpleParseQuery (lib.URLString r.URL) with
  | .error _ => (w, s)
  | .ok params =>
    let params := params.insert "recvdFrom" r.RemoteAddr
    match callWriteConfigFile lib g.cfgFile params s with
    | (s, .error err) =>
      (w, s.logPrintln ("*** Could not write to config file: " ++ err ++ " ***"))
    | (s, .ok _) =>
      let s := s.logPrintln ("- wrote config file: " ++ g.cfgFile)
      let s := if g.verbose then
          { s with stdout := s.stdout ++ lib.PrintStringMap params }
        else s
      let w := addStandardHeaders g w
      let w := w.WriteHeader StatusOK
      (w.Write "OK", s)

/-- The four headers of `addStandardHeaders` are in the map `h`. -/
def hasStandardHeaders (g : Globals) (h : StrMap) : Prop :=
  h.lookup "Content-Type" = some "text/plain; charset=utf-8" ∧
  h.lookup "Access-Control-Allow-Origin" = some "*" ∧
  h.lookup "Server" = some "configserv" ∧
  h.lookup "X-Robot-Name" = some g.robotName

instance (g : Globals) (h : StrMap) : Decidable (hasStandardHeaders g h) := by
  unfold hasStandardHeaders; infer_instance

/-! ## The router: `path.Clean` and `http.ServeMux` (Go 1.21)

The program registers its handlers on `http.DefaultServeMux` and serves with
it; which handler a request reaches is decided by the standard library. The
definitions below follow `path/path.go` and `net/http/server.go`. Paths are
compared character by character; every character the router tests is ASCII. -/

/-- Where the scan of `path.Clean` stands: at the start of a path element,
inside an element being copied, or before the second dot of a `..` element. -/
inductive ScanMode where
  | start
  | copy
  | skip
deriving DecidableEq

/-- The inner loop of the `..` case of `path.Clean`, after `out.w--`:
`for out.w > dotdot && out.index(out.w) != '/' { out.w-- }`, from index `w`. -/
def backtrack (buf : List Char) (dotdot : Nat) : Nat → Nat
  | 0 => 0
  | w + 1 =>
    if dotdot < w + 1 ∧ buf.getD (w + 1) '/' ≠ '/' then backtrack buf dotdot w else w + 1

/-- The main loop of `path.Clean`: `rest` is the input from index `r` on,
`out` the buffer written so far (`out.w` is its length). -/
def cleanLoop (rooted : Bool) : List Char → ScanMode → List Char → Nat → List Char
  | [], _, out, _ => out
  | _ :: t, .skip, out, dotdot => cleanLoop rooted t .start out dotdot
  | c :: t, .copy, out, dotdot =>
    if c = '/' then cleanLoop rooted t .start out dotdot
    else cleanLoop rooted t .copy (out ++ [c]) dotdot
  | c :: t, .start, out, dotdot =>
    if c = '/' then
      -- empty path element
      cleanLoop rooted t .start out dotdot
    else if c = '.' ∧ (t = [] ∨ t.head? = some '/') then
      -- . element
      cleanLoop rooted t .start out dotdot
    else if c = '.' ∧ t.head? = some '.' ∧ (t.tail = [] ∨ t.tail.head? = some '/') then
      -- .. element: remove to last /
      if dotdot < out.length then
        cleanLoop rooted t .skip (out.take (backtrack out dotdot (out.length - 1))) dotdot
      else if !rooted then
        let out1 := (if 0 < out.length then out ++ ['/'] else out) ++ ['.', '.']
        cleanLoop rooted t .skip out1 out1.length
      else cleanLoop rooted t .skip out dotdot
    else
      -- real path element: add slash if needed, copy element
      let out1 :=
        if (rooted ∧ out.length ≠ 1) ∨ (!rooted ∧ out.length ≠ 0) then out ++ ['/'] else out
      cleanLoop rooted t .copy (out1 ++ [c]) dotdot

/-- The function `path.Clean`, on the characters of the path. -/
def pathClean (p : List Char) : List Char :=
  match p with
  | [] => ['.']
  | c :: t =>
    let out :=
      if c = '/' then cleanLoop true t .start ['/'] 1 else cleanLoop false (c :: t) .start [] 0
    if out = [] then ['.'] else out

/-- The function `cleanPath` of `net/http/server.go`: the canonical path for
`p`, eliminating `.` and `..` elements and repeated slashes. -/
def cleanPath (p : String) : String :=
  if p.data = [] then "/"
  else
    let p1 : List Char := if p.data.head? ≠ some '/' then '/' :: p.data else p.data
    let np := pathClean p1
    -- path.Clean removes trailing slash except for root;
    -- put the trailing slash back if necessary.
    if p1.getLast? = some '/' ∧ np ≠ ['/'] then
      if p1.length = np.length + 1 ∧ np.isPrefixOf p1 then ⟨p1⟩ else ⟨np ++ ['/']⟩
    else ⟨np⟩

namespace ServeMux

/-- The mux before any registration. -/
def empty : ServeMux := { m := [], es := [], hosts := false }

/-- The map lookup `mux.m[pattern]`. -/
def lookup (mux : ServeMux) (pattern : String) : Option MuxEntry :=
  mux.m.find? (fun e => e.pattern = pattern)

/-- The function `appendSorted`: `e` goes before the first entry whose
pattern is shorter, so that `es` stays sorted from longest to shortest. -/
def appendSorted (es : List MuxEntry) (e : MuxEntry) : List MuxEntry :=
  es.takeWhile (fun x => ¬ x.pattern.length < e.pattern.length) ++
    e :: es.dropWhile (fun x => ¬ x.pattern.length < e.pattern.length)

/-- The method `(*ServeMux).Handle`, reached through `http.HandleFunc`;
`none` stands for its panic on an empty or an already registered pattern. -/
def Handle (mux : ServeMux) (pattern : String) (h : HandlerId) : Option ServeMux :=
  if pattern.data = [] then none
  else if (mux.lookup pattern).isSome then none
  else
    some
      { m := mux.m ++ [{ pattern := pattern, h := h }],
        es := if pattern.data.getLast? = some '/' then
            appendSorted mux.es { pattern := pattern, h := h }
          else mux.es,
        hosts := mux.hosts || decide (pattern.data.head? ≠ some '/') }

/-- The method `(*ServeMux).match`: an exact match first, then the longest
pattern ending in `/` that is a prefix of the path. -/
def matchPath (mux : ServeMux) (path : String) : Option MuxEntry :=
  match mux.lookup path with
  | some e => some e
  | none => mux.es.find? (fun e => e.pattern.data.isPrefixOf path.data)

/-- The method `(*ServeMux).shouldRedirectRLocked`. -/
def shouldRedirect (mux : ServeMux) (host path : String) : Bool :=
  if (mux.lookup path).isSome ∨ (mux.lookup (host ++ path)).isSome then false
  else if path.data = [] then false
  else if (mux.lookup (path ++ "/")).isSome ∨ (mux.lookup (host ++ path ++ "/")).isSome then
    decide (path.data.getLast? ≠ some '/')
  else false

end ServeMux

/-- What the router answers a request with: one of the program's handlers,
its own redirect to another URL, or its own `NotFoundHandler`. -/
inductive Route where
  | handler (h : HandlerId)
  | redirect (url : String) (code : Nat)
  | notFound
deriving DecidableEq

namespace ServeMux

/-- The method `(*ServeMux).handler`: the route and the pattern matched. -/
def handler (mux : ServeMux) (host path : String) : Route × String :=
  let r1 := if mux.hosts then mux.matchPath (host ++ path) else none
  let r2 := match r1 with
    | some e => some e
    | none => mux.matchPath path
  match r2 with
  | some e => (.handler e.h, e.pattern)
  | none => (.notFound, "")

/-- The method `(*ServeMux).Handler`: the route for a request and the pattern
it matched. The path of a request other than `CONNECT` is cleaned first, and a
request whose path is not already clean is redirected to the clean one. -/
def Handler (lib : Lib) (mux : ServeMux) (r : Request) : Route × String :=
  if r.Method = "CONNECT" then
    if mux.shouldRedirect r.URL.Host r.URL.Path then
      (.redirect
        (lib.URLString { Host := "", Path := r.URL.Path ++ "/", RawQuery := r.URL.RawQuery })
        StatusMovedPermanently, r.URL.Path ++ "/")
    else mux.handler r.Host r.URL.Path
  else
    let host := lib.stripHostPort r.Host
    let path := cleanPath r.URL.Path
    if mux.shouldRedirect host path then
      (.redirect
        (lib.URLString { Host := "", Path := path ++ "/", RawQuery := r.URL.RawQuery })
        StatusMovedPermanently, path ++ "/")
    else if path ≠ r.URL.Path then
      (.redirect (lib.URLString { Host := "", Path := path, RawQuery := r.URL.RawQuery })
        StatusMovedPermanently, (mux.handler host path).2)
    else mux.handler host r.URL.Path

end ServeMux

/-! ## Serving a request -/

/-- The server's answer to a request the router has given to handler `h`:
the handler runs on a fresh response writer, and net/http completes the
response when the handler returns. -/
def runHandler (lib : Lib) (g : Globals) (h : HandlerId) (r : Request) (s : Sys) :
    ResponseWriter × Sys :=
  let res := match h with
    | .handleDefault => handleDefault g ResponseWriter.new r s
    | .handleRemoteConfig => handleRemoteConfig lib g ResponseWriter.new r s
  (res.1.finish, res.2)

/-! ## Start-up: `main` -/

/-- Lines 107-122 of `main`: the config file is created, the log file opened
and made the logger's output, and the banner logged. `.error s` is the process
terminated in state `s`, `.ok s` the process going on. -/
def startup (lib : Lib) (g : Globals) (s : Sys) : Except Sys Sys :=
  match lib.Create g.cfgFile s.fs with
  | (fs, some err) =>
    .error (fatalErr "Could not create configuration file" err { s with fs := fs })
  | (fs, none) =>
    match lib.OpenFile g.logFile fs with
    | (fs, some err) =>
      .error (fatalErr ("Failed to open log file " ++ g.logFile ++ ":") err { s with fs := fs })
    | (fs, none) =>
      let s := { s with fs := fs, logOutput := some g.logFile }
      let s := s.logPrintln "Running configserv"
      let s := s.logPrintln ("- on port   : " ++ g.portNum)
      .ok (s.logPrintln ("- robot name: " ++ g.robotName))

/-- The call `fileutils.WritePIDToFile(path)` on the state: the call is
recorded and the file system replaced by the one the function leaves. -/
def callWritePIDToFile (lib : Lib) (path : String) (s : Sys) : Sys × Except String Nat :=
  let res := lib.WritePIDToFile path s.fs
  ({ s with fs := res.1, pidWrites := s.pidWrites ++ [path] }, res.2)

/-- Lines 125-130 of `main`: the previous PID file is read; an error is
logged, a PID found is logged. -/
def readOldPid (lib : Lib) (s : Sys) : Sys :=
  match lib.ReadPIDFile pidFile s.fs with
  | (_, some err) => s.logPrintln err
  | (oldPid, none) =>
    if oldPid ≠ "" then s.logPrintln ("- previous PID found: " ++ oldPid) else s

/-- Lines 125-141 of `main`, the PID step. -/
def pidStep (lib : Lib) (s : Sys) : Except Sys Sys :=
  let s := readOldPid lib s
  match callWritePIDToFile lib (lib.TempDir ++ "/" ++ pidFile) s with
  | (s, .error err) =>
    let s := s.logPrintln ("- could not write to temp PID file: " ++ err)
    -- maybe the temp dir wasn't writable. Try again using just a local file
    match callWritePIDToFile lib pidFile s with
    | (s, .error err) => .error (fatalErr "*** Could not write to PID file ***" err s)
    | (s, .ok _) => .ok (s.logPrintln ("- created local PID file: " ++ pidFile))
  | (s, .ok _) => .ok (s.logPrintln ("- created PID file: " ++ lib.TempDir ++ "/" ++ pidFile))

/-- Lines 147 and 152 of `main`: the two routes, in the order registered. -/
def registerHandlers (mux : ServeMux) : Option ServeMux :=
  (mux.Handle "/remcfg" .handleRemoteConfig).bind
    (fun mux => mux.Handle "/" .handleDefault)

/-- Lines 143-157 of `main`: the routes are registered and the listener
started. A panic of `HandleFunc` ends the process with code 2; when
`ListenAndServe` returns, `main` returns and the process ends with code 0. -/
def serveStep (lib : Lib) (g : Globals) (s : Sys) : Sys :=
  match registerHandlers s.mux with
  | none => { s with exited := some 2 }
  | some mux =>
    let s := { s with mux := mux }
    match lib.ListenAndServe (":" ++ g.portNum) with
    | some _ => { s with exited := some 0 }
    | none => { s with listening := some (":" ++ g.portNum) }

/-- Lines 98-158, `main`, from the state the process starts in to the state
in which it serves requests or has terminated. `g` holds the settings after
`flag.Parse`. -/
def main (lib : Lib) (g : Globals) (s : Sys) : Sys :=
  match startup lib g s with
  | .error s => s
  | .ok s =>
    match pidStep lib s with
    | .error s => s
    | .ok s => serveStep lib g s

/-- The state a step ends in, whether the process goes on or has terminated. -/
def endState : Except Sys Sys → Sys
  | .ok s => s
  | .error s => s

/-- The writes of the PID file the PID step attempts after the first, given
the result of the first. -/
def laterPidWrites : Except String Nat → List String
  | .ok _ => []
  | .error _ => [pidFile]

/-- The response net/http sends for a handler that wrote nothing. -/
def bareResponse : ResponseWriter :=
  { header := ∅, status := some 200, sent := ∅, body := "" }

/-- A file system in which neither the temporary directory nor the working
directory can be written to. -/
def roDirs : FS := [⟨"/tmp", "ro"⟩, ⟨".", "ro"⟩].toFinmap

/-- The routing table after the two registrations of `main`. -/
def routes : ServeMux :=
  { m := [{ pattern := "/remcfg", h := .handleRemoteConfig },
      { pattern := "/", h := .handleDefault }],
    es := [{ pattern := "/", h := .handleDefault }],
    hosts := false }

/-! ## Responses -/

/-- The response of a successful `/remcfg` request: it depends on the robot
name alone. -/
def okResponse (g : Globals) : ResponseWriter :=
  { header := [⟨"X-Robot-Name", g.robotName⟩, ⟨"Server", "configserv"⟩,
      ⟨"Access-Control-Allow-Origin", "*"⟩,
      ⟨"Content-Type", "text/plain; charset=utf-8"⟩].toFinmap,
    status := some 200,
    sent := [⟨"X-Robot-Name", g.robotName⟩, ⟨"Server", "configserv"⟩,
      ⟨"Access-Control-Allow-Origin", "*"⟩,
      ⟨"Content-Type", "text/plain; charset=utf-8"⟩].toFinmap,
    body := "OK" }

/-- The response of the fallback handler. -/
def unknownResponse (g : Globals) : ResponseWriter :=
  { okResponse g with status := some 404, body := "unknown" }

/-! ## Concrete collaborators for the worked examples -/

/-- The mapping a query `a=1&b=2` stands for. -/
def mapAB : StrMap := [⟨"a", "1"⟩, ⟨"b", "2"⟩].toFinmap

/-- The mapping `mapAB` with `recvdFrom` set to `addr`. -/
def mapABFrom (addr : String) : StrMap :=
  [⟨"a", "1"⟩, ⟨"b", "2"⟩, ⟨"recvdFrom", addr⟩].toFinmap

/-- A mapping in which the client itself supplied `recvdFrom`. -/
def mapSpoofed : StrMap := [⟨"recvdFrom", "10.0.0.9:1"⟩].toFinmap

/-- One instance of the imported packages, on which the theorems are run:
the parser knows three request targets and rejects a bad percent escape, the
writer fails on an empty file name and in the directory `/ro`, the temporary
directory is `/tmp`. -/
def sampleLib : Lib where
  URLString := fun u => if u.RawQuery = "" then u.Path else u.Path ++ "?" ++ u.RawQuery
  SimpleParseQuery := fun t =>
    if t = "/remcfg?a=1&b=2" then .ok mapAB
    else if t = "/remcfg?recvdFrom=10.0.0.9:1" then .ok mapSpoofed
    else if t = "/remcfg?a=%zz" then .error "invalid URL escape"
    else .ok ∅
  WriteConfigFile := fun path m fs =>
    if path = "" ∨ path = "/ro/remoteSvr.cfg" then (fs, .error "open: permission denied")
    else (fs.insert path ("recvdFrom=" ++ (m.lookup "recvdFrom").getD ""), .ok m.keys.card)
  PrintStringMap := fun m => [(m.lookup "recvdFrom").getD ""]
  TempDir := "/tmp"
  Create := fun path fs =>
    if path = "" then (fs, some "open: no such file or directory") else (fs.insert path "", none)
  OpenFile := fun path fs =>
    if path = "" then (fs, some "open: no such file or directory")
    else (fs.insert path ((fs.lookup path).getD ""), none)
  ReadPIDFile := fun path fs =>
    match fs.lookup path with
    | some pid => (pid, none)
    | none => ("", some "open: no such file or directory")
  WritePIDToFile := fun path fs =>
    if path = "/tmp/configserv.pid" ∧ fs.lookup "/tmp" = some "ro" then
      (fs, .error "open: permission denied")
    else if path = "configserv.pid" ∧ fs.lookup "." = some "ro" then
      (fs, .error "open: permission denied")
    else (fs.insert path "4242", .ok 4)
  ListenAndServe := fun addr =>
    if addr = ":3000" then none else some "listen tcp: address already in use"
  stripHostPort := fun h => ⟨h.data.takeWhile (fun c => c ≠ ':')⟩

/-- Settings under which the config file lies in a directory that has become
read-only. -/
def roGlobals : Globals := { Globals.default with cfgFile := "/ro/remoteSvr.cfg" }

/-- A request `GET target` from `10.0.0.7:51234`. -/
def sampleRequest (path query : String) : Request :=
  { Method := "GET", Host := "robot.local:3000",
    URL := { Host := "", Path := path, RawQuery := query },
    RemoteAddr := "10.0.0.7:51234" }


/-! ## The three paths through `handleRemoteConfig` -/

theorem handleRemoteConfig_of_parse_error (lib : Lib) (g : Globals) (w : ResponseWriter)
    (r : Request) (s : Sys) (e : String)
    (hparse : lib.SimpleParseQuery (lib.URLString r.URL) = .error e) :
    handleRemoteConfig lib g w r s = (w, s) := by
  simp [handleRemoteConfig, hparse]

theorem handleRemoteConfig_of_write_error (lib : Lib) (g : Globals) (w : ResponseWriter)
    (r : Request) (s : Sys) (m : StrMap) (e : String)
    (hparse : lib.SimpleParseQuery (lib.URLString r.URL) = .ok m)
    (hwrite : (lib.WriteConfigFile g.cfgFile (m.insert "recvdFrom" r.RemoteAddr) s.fs).2
      = .error e) :
    handleRemoteConfig lib g w r s =
      (w, (callWriteConfigFile lib g.cfgFile (m.insert "recvdFrom" r.RemoteAddr) s).1.logPrintln
        ("*** Could not write to config file: " ++ e ++ " ***")) := by
  simp [handleRemoteConfig, hparse, callWriteConfigFile, hwrite]

theorem handleRemoteConfig_of_write_ok (lib : Lib) (g : Globals) (w : ResponseWriter)
    (r : Request) (s : Sys) (m : StrMap) (n : Nat)
    (hparse : lib.SimpleParseQuery (lib.URLString r.URL) = .ok m)
    (hwrite : (lib.WriteConfigFile g.cfgFile (m.insert "recvdFrom" r.RemoteAddr) s.fs).2
      = .ok n) :
    handleRemoteConfig lib g w r s =
      ((((addStandardHeaders g w).WriteHeader StatusOK).Write "OK"),
        (if g.verbose then
          { (callWriteConfigFile lib g.cfgFile (m.insert "recvdFrom" r.RemoteAddr) s).1.logPrintln
              ("- wrote config file: " ++ g.cfgFile) with
            stdout := s.stdout ++ lib.PrintStringMap (m.insert "recvdFrom" r.RemoteAddr) }
        else (callWriteConfigFile lib g.cfgFile (m.insert "recvdFrom" r.RemoteAddr) s).1.logPrintln
              ("- wrote config file: " ++ g.cfgFile))) := by
  simp [handleRemoteConfig, hparse, callWriteConfigFile, hwrite, Sys.logPrintln]

theorem handleRemoteConfig_cfgWrites (lib : Lib) (g : Globals) (w : ResponseWriter)
    (r : Request) (s : Sys) (m : StrMap)
    (hparse : lib.SimpleParseQuery (lib.URLString r.URL) = .ok m) :
    (handleRemoteConfig lib g w r s).2.cfgWrites =
      s.cfgWrites ++ [(g.cfgFile, m.insert "recvdFrom" r.RemoteAddr)] := by
  rcases hw : (lib.WriteConfigFile g.cfgFile (m.insert "recvdFrom" r.RemoteAddr) s.fs).2 with e | n
  · rw [handleRemoteConfig_of_write_error lib g w r s m e hparse hw]
    simp [callWriteConfigFile, Sys.logPrintln]
  · rw [handleRemoteConfig_of_write_ok lib g w r s m n hparse hw]
    by_cases hv : g.verbose <;> simp [hv, callWriteConfigFile, Sys.logPrintln]

/-! ## Responses written -/

theorem hasStandardHeaders_insert (g : Globals) (h : StrMap) :
    hasStandardHeaders g
      ((((h.insert "Content-Type" "text/plain; charset=utf-8").insert
        "Access-Control-Allow-Origin" "*").insert "Server" "configserv").insert
        "X-Robot-Name" g.robotName) := by
  refine ⟨?_, ?_, ?_, ?_⟩
  · rw [Finmap.lookup_insert_of_ne _ (by decide), Finmap.lookup_insert_of_ne _ (by decide),
      Finmap.lookup_insert_of_ne _ (by decide), Finmap.lookup_insert]
  · rw [Finmap.lookup_insert_of_ne _ (by decide), Finmap.lookup_insert_of_ne _ (by decide),
      Finmap.lookup_insert]
  · rw [Finmap.lookup_insert_of_ne _ (by decide), Finmap.lookup_insert]
  · rw [Finmap.lookup_insert]

theorem hasStandardHeaders_okResponse (g : Globals) :
    hasStandardHeaders g (okResponse g).sent :=
  hasStandardHeaders_insert g ∅

theorem ok_on_new (g : Globals) :
    ((addStandardHeaders g ResponseWriter.new).WriteHeader StatusOK).Write "OK" =
      okResponse g := rfl

theorem unknown_on_new (g : Globals) :
    ((addStandardHeaders g ResponseWriter.new).WriteHeader StatusNotFound).Write "unknown" =
      unknownResponse g := rfl

/-! ## Claims about `handleRemoteConfig` -/

/-- C1: for every request to `handleRemoteConfig` whose query parses, the
mapping handed to the config writer holds the key `recvdFrom` with the
request's remote address as its value, whatever the parsed query held under
that key. -/
theorem handleRemoteConfig_recvdFrom (lib : Lib) (g : Globals) (w : ResponseWriter)
    (r : Request) (s : Sys) (m : StrMap)
    (hparse : lib.SimpleParseQuery (lib.URLString r.URL) = .ok m) :
    ∃ written : StrMap,
      (handleRemoteConfig lib g w r s).2.cfgWrites = s.cfgWrites ++ [(g.cfgFile, written)] ∧
      written.lookup "recvdFrom" = some r.RemoteAddr :=
  ⟨m.insert "recvdFrom" r.RemoteAddr, handleRemoteConfig_cfgWrites lib g w r s m hparse,
    Finmap.lookup_insert m⟩

/-- C1 at a request whose query itself carries `recvdFrom=10.0.0.9:1`: the
writer receives the address the request came from instead. -/
theorem handleRemoteConfig_recvdFrom_witness :
    mapSpoofed.lookup "recvdFrom" = some "10.0.0.9:1" ∧
    ∃ written : StrMap,
      (handleRemoteConfig sampleLib Globals.default ResponseWriter.new
        (sampleRequest "/remcfg" "recvdFrom=10.0.0.9:1") (Sys.init ∅)).2.cfgWrites
        = (Sys.init ∅).cfgWrites ++ [(Globals.default.cfgFile, written)] ∧
      written.lookup "recvdFrom" = some "10.0.0.7:51234" :=
  ⟨by decide, handleRemoteConfig_recvdFrom sampleLib Globals.default ResponseWriter.new
    (sampleRequest "/remcfg" "recvdFrom=10.0.0.9:1") (Sys.init ∅) mapSpoofed rfl⟩

/-- C2: for every request to `handleRemoteConfig` whose query fails to parse,
the config writer is not invoked, the files are as before the request, and
the handler leaves the response untouched: no header, no status, no body. -/
theorem handleRemoteConfig_parse_failure (lib : Lib) (g : Globals) (w : ResponseWriter)
    (r : Request) (s : Sys) (e : String)
    (hparse : lib.SimpleParseQuery (lib.URLString r.URL) = .error e) :
    (handleRemoteConfig lib g w r s).2.cfgWrites = s.cfgWrites ∧
    (handleRemoteConfig lib g w r s).2.fs = s.fs ∧
    (handleRemoteConfig lib g w r s).1 = w := by
  rw [handleRemoteConfig_of_parse_error lib g w r s e hparse]
  exact ⟨rfl, rfl, rfl⟩

/-- C2 at the request `GET /remcfg?a=%zz`, with a config file already there. -/
theorem handleRemoteConfig_parse_failure_witness :
    sampleLib.SimpleParseQuery (sampleLib.URLString (sampleRequest "/remcfg" "a=%zz").URL)
      = .error "invalid URL escape" ∧
    (handleRemoteConfig sampleLib Globals.default ResponseWriter.new
      (sampleRequest "/remcfg" "a=%zz")
      (Sys.init (Finmap.singleton "remoteSvr.cfg" "old=1"))).2.cfgWrites = [] ∧
    (handleRemoteConfig sampleLib Globals.default ResponseWriter.new
      (sampleRequest "/remcfg" "a=%zz")
      (Sys.init (Finmap.singleton "remoteSvr.cfg" "old=1"))).2.fs
      = Finmap.singleton "remoteSvr.cfg" "old=1" ∧
    (handleRemoteConfig sampleLib Globals.default ResponseWriter.new
      (sampleRequest "/remcfg" "a=%zz")
      (Sys.init (Finmap.singleton "remoteSvr.cfg" "old=1"))).1 = ResponseWriter.new :=
  ⟨rfl, handleRemoteConfig_parse_failure sampleLib Globals.default ResponseWriter.new
    (sampleRequest "/remcfg" "a=%zz") (Sys.init (Finmap.singleton "remoteSvr.cfg" "old=1"))
    "invalid URL escape" rfl⟩

/-- C3: for every request to `handleRemoteConfig` on which the query parses and
the config file is written, the response has status 200 and body `OK`, the four
standard headers are among the headers sent with the status (they were set
before it was written), and the whole response is `okResponse`, which does not
depend on the request. -/
theorem handleRemoteConfig_success (lib : Lib) (g : Globals) (r : Request) (s : Sys)
    (m : StrMap) (n : Nat)
    (hparse : lib.SimpleParseQuery (lib.URLString r.URL) = .ok m)
    (hwrite : (lib.WriteConfigFile g.cfgFile (m.insert "recvdFrom" r.RemoteAddr) s.fs).2
      = .ok n) :
    (handleRemoteConfig lib g ResponseWriter.new r s).1.status = some 200 ∧
    (handleRemoteConfig lib g ResponseWriter.new r s).1.body = "OK" ∧
    hasStandardHeaders g (handleRemoteConfig lib g ResponseWriter.new r s).1.sent ∧
    (handleRemoteConfig lib g ResponseWriter.new r s).1 = okResponse g := by
  rw [handleRemoteConfig_of_write_ok lib g _ r s m n hparse hwrite]
  exact ⟨rfl, rfl, hasStandardHeaders_okResponse g, ok_on_new g⟩

/-- C3 at the request `GET /remcfg?a=1&b=2`. -/
theorem handleRemoteConfig_success_witness :
    sampleLib.SimpleParseQuery (sampleLib.URLString (sampleRequest "/remcfg" "a=1&b=2").URL)
      = .ok mapAB ∧
    (handleRemoteConfig sampleLib Globals.default ResponseWriter.new
      (sampleRequest "/remcfg" "a=1&b=2") (Sys.init ∅)).1.status = some 200 ∧
    (handleRemoteConfig sampleLib Globals.default ResponseWriter.new
      (sampleRequest "/remcfg" "a=1&b=2") (Sys.init ∅)).1.body = "OK" ∧
    hasStandardHeaders Globals.default (handleRemoteConfig sampleLib Globals.default
      ResponseWriter.new (sampleRequest "/remcfg" "a=1&b=2") (Sys.init ∅)).1.sent ∧
    (handleRemoteConfig sampleLib Globals.default ResponseWriter.new
      (sampleRequest "/remcfg" "a=1&b=2") (Sys.init ∅)).1 = okResponse Globals.default :=
  ⟨rfl, handleRemoteConfig_success sampleLib Globals.default
    (sampleRequest "/remcfg" "a=1&b=2") (Sys.init ∅) mapAB 3 rfl rfl⟩

/-- C4: for every request to `handleRemoteConfig` on which the config-file
write fails, the handler logs the write error and leaves the response
untouched: no header is set, no status 200 and no body `OK` is written. Read
the other way round, a response is written only if the write returned without
an error. -/
theorem handleRemoteConfig_write_failure (lib : Lib) (g : Globals) (w : ResponseWriter)
    (r : Request) (s : Sys) (m : StrMap) (e : String)
    (hparse : lib.SimpleParseQuery (lib.URLString r.URL) = .ok m)
    (hwrite : (lib.WriteConfigFile g.cfgFile (m.insert "recvdFrom" r.RemoteAddr) s.fs).2
      = .error e) :
    (handleRemoteConfig lib g w r s).2.log
      = s.log ++ ["*** Could not write to config file: " ++ e ++ " ***"] ∧
    (handleRemoteConfig lib g w r s).1 = w := by
  rw [handleRemoteConfig_of_write_error lib g w r s m e hparse hwrite]
  exact ⟨rfl, rfl⟩

/-- C4 at the request `GET /remcfg?a=1&b=2` when the config file cannot be
opened for writing. -/
theorem handleRemoteConfig_write_failure_witness :
    (sampleLib.SimpleParseQuery (sampleLib.URLString (sampleRequest "/remcfg" "a=1&b=2").URL)
      = .ok mapAB ∧
     (sampleLib.WriteConfigFile roGlobals.cfgFile
        (mapAB.insert "recvdFrom" (sampleRequest "/remcfg" "a=1&b=2").RemoteAddr)
        (Sys.init ∅).fs).2 = .error "open: permission denied") ∧
    (handleRemoteConfig sampleLib roGlobals ResponseWriter.new
      (sampleRequest "/remcfg" "a=1&b=2") (Sys.init ∅)).2.log
      = [] ++ ["*** Could not write to config file: " ++ "open: permission denied" ++ " ***"] ∧
    (handleRemoteConfig sampleLib roGlobals ResponseWriter.new
      (sampleRequest "/remcfg" "a=1&b=2") (Sys.init ∅)).1 = ResponseWriter.new :=
  ⟨⟨rfl, rfl⟩, handleRemoteConfig_write_failure sampleLib roGlobals ResponseWriter.new
    (sampleRequest "/remcfg" "a=1&b=2") (Sys.init ∅) mapAB "open: permission denied" rfl rfl⟩

/-! ## Claims about `handleDefault` -/

/-- C5: for every request, whatever its method, path and query, `handleDefault`
answers with status 404 and body `unknown`, the four standard headers are sent
with the status, and nothing outside the response changes: in particular the
config writer is not invoked and no file is touched. -/
theorem handleDefault_response (g : Globals) (r : Request) (s : Sys) :
    (handleDefault g ResponseWriter.new r s).1.status = some 404 ∧
    (handleDefault g ResponseWriter.new r s).1.body = "unknown" ∧
    hasStandardHeaders g (handleDefault g ResponseWriter.new r s).1.sent ∧
    (handleDefault g ResponseWriter.new r s).1 = unknownResponse g ∧
    (handleDefault g ResponseWriter.new r s).2 = s ∧
    (handleDefault g ResponseWriter.new r s).2.cfgWrites = s.cfgWrites :=
  ⟨rfl, rfl, hasStandardHeaders_okResponse g, unknown_on_new g, rfl, rfl⟩

/-! ## Logging of errors -/

/-- C7, as the claim states it, fails: on `GET /remcfg?a=%zz` the parse fails
and the handler returns with the log as it was, so it is not true that every
request whose query fails to parse adds an entry to the log. -/
theorem parse_error_not_logged :
    ¬ ∀ (lib : Lib) (g : Globals) (w : ResponseWriter) (r : Request) (s : Sys),
      (∃ e, lib.SimpleParseQuery (lib.URLString r.URL) = .error e) →
      s.log.length < (handleRemoteConfig lib g w r s).2.log.length := by
  intro h
  have h1 := h sampleLib Globals.default ResponseWriter.new (sampleRequest "/remcfg" "a=%zz")
    (Sys.init ∅) ⟨"invalid URL escape", rfl⟩
  rw [handleRemoteConfig_of_parse_error sampleLib Globals.default ResponseWriter.new
    (sampleRequest "/remcfg" "a=%zz") (Sys.init ∅) "invalid URL escape" rfl] at h1
  exact absurd h1 (by decide)

/-- C7, amended: during request handling by `handleRemoteConfig` a write error
is logged and a parse error is not. On every request on which the config write
fails the handler appends one entry, naming the error, to the log; on every
request on which the query parse fails it returns with the log unchanged; and
on no request at all does it terminate the process. -/
theorem handleRemoteConfig_error_logging (lib : Lib) (g : Globals) (w : ResponseWriter)
    (r : Request) (s : Sys) :
    (∀ e, lib.SimpleParseQuery (lib.URLString r.URL) = .error e →
      (handleRemoteConfig lib g w r s).2.log = s.log) ∧
    (∀ m e, lib.SimpleParseQuery (lib.URLString r.URL) = .ok m →
      (lib.WriteConfigFile g.cfgFile (m.insert "recvdFrom" r.RemoteAddr) s.fs).2 = .error e →
      (handleRemoteConfig lib g w r s).2.log
        = s.log ++ ["*** Could not write to config file: " ++ e ++ " ***"]) ∧
    (handleRemoteConfig lib g w r s).2.exited = s.exited := by
  refine ⟨?_, ?_, ?_⟩
  · intro e he
    rw [handleRemoteConfig_of_parse_error lib g w r s e he]
  · intro m e hm he
    rw [handleRemoteConfig_of_write_error lib g w r s m e hm he]
    rfl
  · rcases hp : lib.SimpleParseQuery (lib.URLString r.URL) with e | m
    · rw [handleRemoteConfig_of_parse_error lib g w r s e hp]
    · rcases hw : (lib.WriteConfigFile g.cfgFile (m.insert "recvdFrom" r.RemoteAddr) s.fs).2
        with e | n
      · rw [handleRemoteConfig_of_write_error lib g w r s m e hp hw]
        rfl
      · rw [handleRemoteConfig_of_write_ok lib g w r s m n hp hw]
        by_cases hv : g.verbose <;> simp [hv, callWriteConfigFile, Sys.logPrintln]

/-- C7, amended, at a request whose write fails and at one whose parse fails. -/
theorem handleRemoteConfig_error_logging_witness :
    (handleRemoteConfig sampleLib roGlobals ResponseWriter.new
      (sampleRequest "/remcfg" "a=1&b=2") (Sys.init ∅)).2.log
      = ["*** Could not write to config file: open: permission denied ***"] ∧
    (handleRemoteConfig sampleLib roGlobals ResponseWriter.new
      (sampleRequest "/remcfg" "a=%zz") (Sys.init ∅)).2.log = [] ∧
    (handleRemoteConfig sampleLib roGlobals ResponseWriter.new
      (sampleRequest "/remcfg" "a=1&b=2") (Sys.init ∅)).2.exited = none :=
  ⟨(handleRemoteConfig_error_logging sampleLib roGlobals ResponseWriter.new
      (sampleRequest "/remcfg" "a=1&b=2") (Sys.init ∅)).2.1 mapAB "open: permission denied"
      rfl rfl,
    (handleRemoteConfig_error_logging sampleLib roGlobals ResponseWriter.new
      (sampleRequest "/remcfg" "a=%zz") (Sys.init ∅)).1 "invalid URL escape" rfl,
    (handleRemoteConfig_error_logging sampleLib roGlobals ResponseWriter.new
      (sampleRequest "/remcfg" "a=1&b=2") (Sys.init ∅)).2.2⟩

/-! ## What the config writer is given -/

/-- C8: for every request to `handleRemoteConfig` whose query parses to a
mapping `m`, the config writer is invoked exactly once, whether the write
succeeds or fails, with the configured config-file path and a mapping that
agrees with `m` on every key other than `recvdFrom` and has no key beyond those
of `m` and `recvdFrom`; when `m` is `a:1, b:2` the mapping written is exactly
`a:1, b:2, recvdFrom:<remote address>`. -/
theorem handleRemoteConfig_writer_call (lib : Lib) (g : Globals) (w : ResponseWriter)
    (r : Request) (s : Sys) (m : StrMap)
    (hparse : lib.SimpleParseQuery (lib.URLString r.URL) = .ok m) :
    ∃ written : StrMap,
      (handleRemoteConfig lib g w r s).2.cfgWrites = s.cfgWrites ++ [(g.cfgFile, written)] ∧
      (∀ k, k ≠ "recvdFrom" → written.lookup k = m.lookup k) ∧
      (∀ k, k ∈ written → k ∈ m ∨ k = "recvdFrom") ∧
      written.lookup "recvdFrom" = some r.RemoteAddr ∧
      (m = mapAB → written = mapABFrom r.RemoteAddr) := by
  refine ⟨m.insert "recvdFrom" r.RemoteAddr, handleRemoteConfig_cfgWrites lib g w r s m hparse,
    ?_, ?_, Finmap.lookup_insert m, ?_⟩
  · intro k hk
    exact Finmap.lookup_insert_of_ne m hk
  · intro k hk
    rcases Finmap.mem_insert.1 hk with h | h
    · exact Or.inr h
    · exact Or.inl h
  · intro hm
    subst hm
    apply Finmap.ext_lookup
    intro k
    by_cases h1 : k = "recvdFrom"
    · subst h1
      rw [Finmap.lookup_insert]
      simp [mapABFrom, Finmap.toFinmap_cons]
    · rw [Finmap.lookup_insert_of_ne _ h1]
      by_cases ha : k = "a"
      · subst ha
        simp [mapAB, mapABFrom, Finmap.toFinmap_cons]
      · by_cases hb : k = "b"
        · subst hb
          simp [mapAB, mapABFrom, Finmap.toFinmap_cons]
        · simp [mapAB, mapABFrom, Finmap.toFinmap_cons, Finmap.lookup_insert_of_ne, ha, hb, h1]

/-- C8 at the request `GET /remcfg?a=1&b=2`. -/
theorem handleRemoteConfig_writer_call_witness :
    sampleLib.SimpleParseQuery (sampleLib.URLString (sampleRequest "/remcfg" "a=1&b=2").URL)
      = .ok mapAB ∧
    ∃ written : StrMap,
      (handleRemoteConfig sampleLib Globals.default ResponseWriter.new
        (sampleRequest "/remcfg" "a=1&b=2") (Sys.init ∅)).2.cfgWrites
        = (Sys.init ∅).cfgWrites ++ [(Globals.default.cfgFile, written)] ∧
      (∀ k, k ≠ "recvdFrom" → written.lookup k = mapAB.lookup k) ∧
      (∀ k, k ∈ written → k ∈ mapAB ∨ k = "recvdFrom") ∧
      written.lookup "recvdFrom" = some "10.0.0.7:51234" ∧
      (mapAB = mapAB → written = mapABFrom "10.0.0.7:51234") :=
  ⟨rfl, handleRemoteConfig_writer_call sampleLib Globals.default ResponseWriter.new
    (sampleRequest "/remcfg" "a=1&b=2") (Sys.init ∅) mapAB rfl⟩

/-! ## Standard headers on the failure paths -/

/-- C6, on the code: when the query fails to parse, or parses and the config
write fails, the response the server sends for `handleRemoteConfig` is the bare
default of net/http, status 200 with an empty body and no header set by the
program, so the four standard headers are missing from it. -/
theorem failure_response_without_standard_headers (lib : Lib) (g : Globals) (r : Request)
    (s : Sys)
    (hfail : (∃ e, lib.SimpleParseQuery (lib.URLString r.URL) = .error e) ∨
      (∃ m e, lib.SimpleParseQuery (lib.URLString r.URL) = .ok m ∧
        (lib.WriteConfigFile g.cfgFile (m.insert "recvdFrom" r.RemoteAddr) s.fs).2
          = .error e)) :
    (runHandler lib g .handleRemoteConfig r s).1 = bareResponse ∧
    (runHandler lib g .handleRemoteConfig r s).1.sent.lookup "X-Robot-Name" = none ∧
    ¬ hasStandardHeaders g (runHandler lib g .handleRemoteConfig r s).1.sent := by
  have h1 : (runHandler lib g .handleRemoteConfig r s).1 = bareResponse := by
    rcases hfail with ⟨e, he⟩ | ⟨m, e, hm, he⟩
    · simp only [runHandler]
      rw [handleRemoteConfig_of_parse_error lib g _ r s e he]
      rfl
    · simp only [runHandler]
      rw [handleRemoteConfig_of_write_error lib g _ r s m e hm he]
      rfl
  rw [h1]
  refine ⟨rfl, rfl, ?_⟩
  intro h
  have h2 := h.1
  simp [bareResponse] at h2

/-- C6, on the code, at the request `GET /remcfg?a=%zz`. -/
theorem failure_response_without_standard_headers_witness :
    sampleLib.SimpleParseQuery (sampleLib.URLString (sampleRequest "/remcfg" "a=%zz").URL)
      = .error "invalid URL escape" ∧
    (runHandler sampleLib Globals.default .handleRemoteConfig
      (sampleRequest "/remcfg" "a=%zz") (Sys.init ∅)).1 = bareResponse ∧
    (runHandler sampleLib Globals.default .handleRemoteConfig
      (sampleRequest "/remcfg" "a=%zz") (Sys.init ∅)).1.sent.lookup "X-Robot-Name" = none ∧
    ¬ hasStandardHeaders Globals.default (runHandler sampleLib Globals.default
      .handleRemoteConfig (sampleRequest "/remcfg" "a=%zz") (Sys.init ∅)).1.sent :=
  ⟨rfl, failure_response_without_standard_headers sampleLib Globals.default
    (sampleRequest "/remcfg" "a=%zz") (Sys.init ∅) (Or.inl ⟨"invalid URL escape", rfl⟩)⟩

/-! ## Start-up -/

theorem startup_keeps_routes (lib : Lib) (g : Globals) (s0 s : Sys)
    (hstart : startup lib g s0 = .ok s) :
    s.mux = s0.mux ∧ s.listening = s0.listening ∧ s.exited = s0.exited ∧
      s.pidWrites = s0.pidWrites := by
  unfold startup at hstart
  rcases hc : lib.Create g.cfgFile s0.fs with ⟨fs1, _ | e1⟩
  · simp only [hc] at hstart
    rcases ho : lib.OpenFile g.logFile fs1 with ⟨fs2, _ | e2⟩
    · simp only [ho, Except.ok.injEq] at hstart
      subst hstart
      exact ⟨rfl, rfl, rfl, rfl⟩
    · simp only [ho] at hstart
      cases hstart
  · simp only [hc] at hstart
    cases hstart

theorem readOldPid_frame (lib : Lib) (s : Sys) :
    (readOldPid lib s).fs = s.fs ∧ (readOldPid lib s).pidWrites = s.pidWrites ∧
    (readOldPid lib s).mux = s.mux ∧ (readOldPid lib s).listening = s.listening ∧
    (readOldPid lib s).exited = s.exited := by
  unfold readOldPid
  rcases lib.ReadPIDFile pidFile s.fs with ⟨old, _ | e⟩
  · by_cases h : old = "" <;> simp [h, Sys.logPrintln]
  · simp [Sys.logPrintln]

theorem readOldPid_logs_error (lib : Lib) (s : Sys) (old e : String)
    (hread : lib.ReadPIDFile pidFile s.fs = (old, some e)) :
    (readOldPid lib s).log = s.log ++ [e] := by
  simp [readOldPid, hread, Sys.logPrintln]

theorem pidStep_of_temp_ok (lib : Lib) (s : Sys) (fs1 : FS) (n : Nat)
    (h1 : lib.WritePIDToFile (lib.TempDir ++ "/" ++ pidFile) s.fs = (fs1, .ok n)) :
    pidStep lib s = .ok
      (Sys.logPrintln { readOldPid lib s with
          fs := fs1, pidWrites := s.pidWrites ++ [lib.TempDir ++ "/" ++ pidFile] }
        ("- created PID file: " ++ lib.TempDir ++ "/" ++ pidFile)) := by
  simp [pidStep, callWritePIDToFile, (readOldPid_frame lib s).1, (readOldPid_frame lib s).2.1, h1]

theorem pidStep_of_local_ok (lib : Lib) (s : Sys) (fs1 fs2 : FS) (e1 : String) (n : Nat)
    (h1 : lib.WritePIDToFile (lib.TempDir ++ "/" ++ pidFile) s.fs = (fs1, .error e1))
    (h2 : lib.WritePIDToFile pidFile fs1 = (fs2, .ok n)) :
    pidStep lib s = .ok
      (Sys.logPrintln { readOldPid lib s with
          fs := fs2,
          log := (readOldPid lib s).log ++ ["- could not write to temp PID file: " ++ e1],
          pidWrites := s.pidWrites ++ [lib.TempDir ++ "/" ++ pidFile] ++ [pidFile] }
        ("- created local PID file: " ++ pidFile)) := by
  simp [pidStep, callWritePIDToFile, (readOldPid_frame lib s).1, (readOldPid_frame lib s).2.1,
    h1, h2, Sys.logPrintln]

theorem pidStep_of_both_failed (lib : Lib) (s : Sys) (fs1 fs2 : FS) (e1 e2 : String)
    (h1 : lib.WritePIDToFile (lib.TempDir ++ "/" ++ pidFile) s.fs = (fs1, .error e1))
    (h2 : lib.WritePIDToFile pidFile fs1 = (fs2, .error e2)) :
    pidStep lib s = .error
      (fatalErr "*** Could not write to PID file ***" e2
        { readOldPid lib s with
          fs := fs2,
          log := (readOldPid lib s).log ++ ["- could not write to temp PID file: " ++ e1],
          pidWrites := s.pidWrites ++ [lib.TempDir ++ "/" ++ pidFile] ++ [pidFile] }) := by
  simp [pidStep, callWritePIDToFile, (readOldPid_frame lib s).1, (readOldPid_frame lib s).2.1,
    h1, h2, Sys.logPrintln]

theorem readOldPid_log_prefix (lib : Lib) (s : Sys) :
    ∃ rest, (readOldPid lib s).log = s.log ++ rest := by
  unfold readOldPid
  rcases lib.ReadPIDFile pidFile s.fs with ⟨old, _ | e⟩
  · by_cases h : old = ""
    · exact ⟨[], by simp [h]⟩
    · exact ⟨["- previous PID found: " ++ old], by simp [h, Sys.logPrintln]⟩
  · exact ⟨[e], by simp [Sys.logPrintln]⟩

/-- C10: once start-up has reached the PID step, the PID is first written to
the path in the temporary directory; the local path `pidFile` is attempted if
and only if that write fails; the step is fatal if and only if both writes
fail, and then the process ends with code 1, no route registered and no
listener started; an error reading the previous PID file is logged and does
not by itself end the process. -/
theorem pidStep_fallback (lib : Lib) (g : Globals) (s0 s : Sys)
    (hstart : startup lib g s0 = .ok s) :
    (∃ rest, (endState (pidStep lib s)).pidWrites
        = s.pidWrites ++ (lib.TempDir ++ "/" ++ pidFile) :: rest ∧
      (rest = [pidFile] ∨ rest = []) ∧
      (rest = [pidFile] ↔
        ∃ e1, (lib.WritePIDToFile (lib.TempDir ++ "/" ++ pidFile) s.fs).2 = .error e1)) ∧
    ((∃ sf, pidStep lib s = .error sf) ↔
      (∃ e1, (lib.WritePIDToFile (lib.TempDir ++ "/" ++ pidFile) s.fs).2 = .error e1) ∧
      (∃ e2, (lib.WritePIDToFile pidFile
        (lib.WritePIDToFile (lib.TempDir ++ "/" ++ pidFile) s.fs).1).2 = .error e2)) ∧
    (∀ sf, pidStep lib s = .error sf →
      main lib g s0 = sf ∧ sf.exited = some 1 ∧ sf.mux = s0.mux ∧
        sf.listening = s0.listening) ∧
    (∀ sf, pidStep lib s = .ok sf → main lib g s0 = serveStep lib g sf) ∧
    (∀ old e, lib.ReadPIDFile pidFile s.fs = (old, some e) →
      ∃ rest, (endState (pidStep lib s)).log = s.log ++ e :: rest) := by
  obtain ⟨hmux, hlis, -, -⟩ := startup_keeps_routes lib g s0 s hstart
  obtain ⟨-, -, hrmux, hrlis, -⟩ := readOldPid_frame lib s
  have hmain_err : ∀ sf, pidStep lib s = .error sf → main lib g s0 = sf := by
    intro sf h
    simp [main, hstart, h]
  have hmain_ok : ∀ sf, pidStep lib s = .ok sf → main lib g s0 = serveStep lib g sf := by
    intro sf h
    simp [main, hstart, h]
  rcases h1 : lib.WritePIDToFile (lib.TempDir ++ "/" ++ pidFile) s.fs with ⟨fs1, e1 | n1⟩
  · rcases h2 : lib.WritePIDToFile pidFile fs1 with ⟨fs2, e2 | n2⟩
    · have hp := pidStep_of_both_failed lib s fs1 fs2 e1 e2 h1 h2
      refine ⟨⟨[pidFile], ?_, Or.inl rfl, ?_⟩, ?_, ?_, hmain_ok, ?_⟩
      · simp [hp, endState, fatalErr, Sys.logFatalln, Sys.logPrintln, Sys.fmtPrintln]
      · simp
      · simp [hp, h2]
      · intro sf hsf
        refine ⟨hmain_err sf hsf, ?_⟩
        rw [hp] at hsf
        simp only [Except.error.injEq] at hsf
        subst hsf
        simp [fatalErr, Sys.logFatalln, Sys.logPrintln, Sys.fmtPrintln, hrmux, hrlis, hmux, hlis]
      · intro old e hread
        rw [hp, readOldPid_logs_error lib s old e hread]
        simp [endState, fatalErr, Sys.logFatalln, Sys.logPrintln, Sys.fmtPrintln]
    · have hp := pidStep_of_local_ok lib s fs1 fs2 e1 n2 h1 h2
      refine ⟨⟨[pidFile], ?_, Or.inl rfl, ?_⟩, ?_, ?_, hmain_ok, ?_⟩
      · simp [hp, endState, Sys.logPrintln]
      · simp
      · simp [hp, h2]
      · intro sf hsf
        rw [hp] at hsf
        cases hsf
      · intro old e hread
        rw [hp, readOldPid_logs_error lib s old e hread]
        simp [endState, Sys.logPrintln]
  · have hp := pidStep_of_temp_ok lib s fs1 n1 h1
    refine ⟨⟨[], ?_, Or.inr rfl, ?_⟩, ?_, ?_, hmain_ok, ?_⟩
    · simp [hp, endState, Sys.logPrintln]
    · simp
    · simp [hp]
    · intro sf hsf
      rw [hp] at hsf
      cases hsf
    · intro old e hread
      rw [hp]
      simp [endState, Sys.logPrintln, readOldPid_logs_error lib s old e hread]

/-- C10 on a machine where neither the temporary nor the working directory
can be written to: both writes are attempted and fail, and `main` ends with
code 1 before any route is registered. -/
theorem pidStep_fallback_witness :
    startup sampleLib Globals.default (Sys.init roDirs)
      = .ok (endState (startup sampleLib Globals.default (Sys.init roDirs))) ∧
    (∃ sf, pidStep sampleLib (endState (startup sampleLib Globals.default (Sys.init roDirs)))
      = .error sf) ∧
    (main sampleLib Globals.default (Sys.init roDirs)).exited = some 1 ∧
    (main sampleLib Globals.default (Sys.init roDirs)).mux = ServeMux.empty ∧
    (main sampleLib Globals.default (Sys.init roDirs)).listening = none := by
  have h := pidStep_fallback sampleLib Globals.default (Sys.init roDirs)
    (endState (startup sampleLib Globals.default (Sys.init roDirs))) rfl
  have hfatal := h.2.1.2 ⟨⟨"open: permission denied", rfl⟩, ⟨"open: permission denied", rfl⟩⟩
  obtain ⟨sf, hsf⟩ := hfatal
  obtain ⟨hm, he, hx, hl⟩ := h.2.2.1 sf hsf
  refine ⟨rfl, ⟨sf, hsf⟩, ?_, ?_, ?_⟩
  · rw [hm]; exact he
  · rw [hm]; exact hx
  · rw [hm]; exact hl

/-! ## The router -/

theorem registerHandlers_empty : registerHandlers ServeMux.empty = some routes := by
  decide

theorem backtrack_ge (buf : List Char) (dotdot : Nat) :
    ∀ w, dotdot ≤ w → dotdot ≤ backtrack buf dotdot w := by
  intro w
  induction w with
  | zero => intro h; simpa [backtrack] using h
  | succ w ih =>
    intro h
    unfold backtrack
    split_ifs with hc
    · exact ih (by omega)
    · exact h

theorem head?_append_of_head? {out : List Char} {c : Char} (x : List Char)
    (h : out.head? = some c) : (out ++ x).head? = some c := by
  cases out with
  | nil => simp at h
  | cons a tl => simpa using h

theorem head?_take_of_head? {out : List Char} {c : Char} {k : Nat}
    (h : out.head? = some c) (hk : 1 ≤ k) : (out.take k).head? = some c := by
  cases out with
  | nil => simp at h
  | cons a tl =>
    cases k with
    | zero => omega
    | succ k => simpa using h

theorem cleanLoop_rooted_head (rest : List Char) :
    ∀ (mode : ScanMode) (out : List Char) (dotdot : Nat),
      out.head? = some '/' → 1 ≤ dotdot →
      (cleanLoop true rest mode out dotdot).head? = some '/' := by
  induction rest with
  | nil =>
    intro mode out dotdot h _
    cases mode <;> simpa [cleanLoop] using h
  | cons c t ih =>
    intro mode out dotdot h hdd
    cases mode with
    | skip =>
      simp only [cleanLoop]
      exact ih _ _ _ h hdd
    | copy =>
      simp only [cleanLoop]
      split_ifs
      · exact ih _ _ _ h hdd
      · exact ih _ _ _ (head?_append_of_head? _ h) hdd
    | start =>
      simp only [cleanLoop]
      split_ifs with h1 h2 h3 h4 h5 h6
      all_goals first
        | exact ih _ _ _ h hdd
        | exact ih _ _ _ (head?_append_of_head? _ h) hdd
        | exact ih _ _ _ (head?_append_of_head? _ (head?_append_of_head? _ h)) hdd
        | exact ih _ _ _ (head?_take_of_head? h
            (le_trans hdd (backtrack_ge out dotdot _ (by omega)))) hdd
        | exact absurd h5 (by decide)

theorem pathClean_rooted_head (t : List Char) : (pathClean ('/' :: t)).head? = some '/' := by
  have h := cleanLoop_rooted_head t .start ['/'] 1 rfl (le_refl 1)
  simp only [pathClean, if_true]
  split_ifs with he
  · rw [he] at h
    simp at h
  · exact h

theorem cleanPath_head (p : String) : (cleanPath p).data.head? = some '/' := by
  unfold cleanPath
  by_cases h0 : p.data = []
  · simp [h0]
  · simp only [if_neg h0]
    have hp1 : (if p.data.head? ≠ some '/' then '/' :: p.data else p.data).head? = some '/' := by
      split_ifs with h1
      · rfl
      · simpa using h1
    generalize (if p.data.head? ≠ some '/' then '/' :: p.data else p.data) = p1 at hp1 ⊢
    rcases p1 with _ | ⟨c, t⟩
    · simp at hp1
    · simp only [List.head?_cons, Option.some.injEq] at hp1
      subst hp1
      split_ifs
      · rfl
      · exact head?_append_of_head? _ (pathClean_rooted_head t)
      · exact pathClean_rooted_head t

theorem head_of_clean (p : String) (h : cleanPath p = p) : p.data.head? = some '/' := by
  rw [← h]
  exact cleanPath_head p

theorem lookup_routes (p : String) :
    routes.lookup p =
      if p = "/remcfg" then some { pattern := "/remcfg", h := .handleRemoteConfig }
      else if p = "/" then some { pattern := "/", h := .handleDefault }
      else none := by
  by_cases h1 : p = "/remcfg"
  · subst h1
    decide
  · by_cases h2 : p = "/"
    · subst h2
      decide
    · have h1' : ¬ "/remcfg" = p := fun h => h1 h.symm
      have h2' : ¬ "/" = p := fun h => h2 h.symm
      simp [ServeMux.lookup, routes, List.find?, h1, h2, h1', h2']

theorem lookup_routes_slash (x : String) (hx : x.data ≠ []) :
    routes.lookup (x ++ "/") = none := by
  rw [lookup_routes]
  have h1 : ¬ x ++ "/" = "/remcfg" := by
    intro h
    have h' := congrArg (fun s : String => s.data.getLast?) h
    simp at h'
  have h2 : ¬ x ++ "/" = "/" := by
    intro h
    have h' := congrArg (fun s : String => s.data.length) h
    simp at h'
    exact hx (List.length_eq_zero.1 h')
  simp [h1, h2]

theorem shouldRedirect_routes (host path : String) :
    routes.shouldRedirect host path = false := by
  unfold ServeMux.shouldRedirect
  by_cases hp : path.data = []
  · simp [hp]
  · have h1 := lookup_routes_slash path hp
    have h2 : routes.lookup (host ++ path ++ "/") = none :=
      lookup_routes_slash (host ++ path) (by simp [hp])
    simp [h1, h2]

theorem matchPath_routes (p : String) :
    routes.matchPath p =
      if p = "/remcfg" then some { pattern := "/remcfg", h := .handleRemoteConfig }
      else if p.data.head? = some '/' then some { pattern := "/", h := .handleDefault }
      else none := by
  unfold ServeMux.matchPath
  rw [lookup_routes]
  by_cases h1 : p = "/remcfg"
  · simp [h1]
  · by_cases h2 : p = "/"
    · subst h2
      simp [h1]
    · simp only [h1, h2, if_false]
      rcases hp : p.data with _ | ⟨c, t⟩
      · simp [routes, List.find?, List.isPrefixOf]
      · by_cases hc : c = '/'
        · subst hc
          simp [routes, List.find?, List.isPrefixOf]
        · have hb : ('/' == c) = false := by
            simpa using fun h : '/' = c => hc h.symm
          simp [routes, List.find?, List.isPrefixOf, hc, hb]

theorem handler_routes (host p : String) :
    routes.handler host p =
      if p = "/remcfg" then (.handler .handleRemoteConfig, "/remcfg")
      else if p.data.head? = some '/' then (.handler .handleDefault, "/")
      else (.notFound, "") := by
  unfold ServeMux.handler
  have hh : routes.hosts = false := rfl
  simp only [hh, Bool.false_eq_true, if_false]
  rw [matchPath_routes]
  by_cases h1 : p = "/remcfg"
  · simp [h1]
  · by_cases h2 : p.data.head? = some '/' <;> simp [h1, h2]

theorem Handler_routes (lib : Lib) (r : Request) :
    routes.Handler lib r =
      if r.Method ≠ "CONNECT" ∧ cleanPath r.URL.Path ≠ r.URL.Path then
        (.redirect
          (lib.URLString { Host := "", Path := cleanPath r.URL.Path, RawQuery := r.URL.RawQuery })
          StatusMovedPermanently,
          (routes.handler (lib.stripHostPort r.Host) (cleanPath r.URL.Path)).2)
      else if r.URL.Path = "/remcfg" then (.handler .handleRemoteConfig, "/remcfg")
      else if r.URL.Path.data.head? = some '/' then (.handler .handleDefault, "/")
      else (.notFound, "") := by
  unfold ServeMux.Handler
  simp only [shouldRedirect_routes, Bool.false_eq_true, if_false, handler_routes]
  by_cases hm : r.Method = "CONNECT"
  · simp [hm]
  · by_cases hc : cleanPath r.URL.Path = r.URL.Path
    · simp [hm, hc]
    · simp [hm, hc]

/-- C9, as the claim states it, fails: the path `//remcfg` is not `/remcfg`,
yet a `GET //remcfg?a=1` is not dispatched to `handleDefault`; the router
answers it itself, with a redirect to `/remcfg?a=1`. -/
theorem other_path_not_default :
    ¬ ∀ (lib : Lib) (mux : ServeMux) (r : Request),
      registerHandlers ServeMux.empty = some mux → r.URL.Path ≠ "/remcfg" →
      (mux.Handler lib r).1 = .handler .handleDefault := by
  intro h
  have h1 := h sampleLib routes (sampleRequest "//remcfg" "a=1") registerHandlers_empty
    (by decide)
  have h2 : (routes.Handler sampleLib (sampleRequest "//remcfg" "a=1")).1
      = .redirect "/remcfg?a=1" 301 := by decide
  rw [h2] at h1
  cases h1

/-- C9, amended: with the two routes registered in `main`, a request is
dispatched to `handleRemoteConfig` if and only if its path is exactly
`/remcfg`. Every other path that is already in the router's canonical form
(`cleanPath` leaves it as it is, which holds of `/remcfg/` and of `/remcfgx`)
is dispatched to `handleDefault`, matched by the pattern `/`, and so receives
404 `unknown`. A request other than `CONNECT` whose path is not in canonical
form reaches neither handler: the router redirects it to the cleaned path.
The catch-all route is reached only when the path is not `/remcfg`, that is,
when no other route matches. -/
theorem dispatch_of_registered_routes (lib : Lib) (g : Globals) (mux : ServeMux)
    (r : Request) (s : Sys)
    (hreg : registerHandlers ServeMux.empty = some mux) :
    ((mux.Handler lib r).1 = .handler .handleRemoteConfig ↔ r.URL.Path = "/remcfg") ∧
    (cleanPath r.URL.Path = r.URL.Path → r.URL.Path ≠ "/remcfg" →
      mux.Handler lib r = (.handler .handleDefault, "/") ∧
      (runHandler lib g .handleDefault r s).1.status = some 404 ∧
      (runHandler lib g .handleDefault r s).1.body = "unknown") ∧
    (cleanPath "/remcfg/" = "/remcfg/" ∧ cleanPath "/remcfgx" = "/remcfgx") ∧
    (r.Method ≠ "CONNECT" → cleanPath r.URL.Path ≠ r.URL.Path →
      (mux.Handler lib r).1 =
        .redirect
          (lib.URLString
            { Host := "", Path := cleanPath r.URL.Path, RawQuery := r.URL.RawQuery })
          StatusMovedPermanently) ∧
    ((mux.Handler lib r).1 = .handler .handleDefault → r.URL.Path ≠ "/remcfg") := by
  rw [registerHandlers_empty] at hreg
  simp only [Option.some.injEq] at hreg
  subst hreg
  have hc : cleanPath "/remcfg" = "/remcfg" := by decide
  rw [Handler_routes]
  refine ⟨?_, ?_, ⟨by decide, by decide⟩, ?_, ?_⟩
  · constructor
    · intro h
      split_ifs at h with h1 h2 h3
      all_goals first
        | exact h2
        | cases h
    · intro h
      rw [h, hc]
      simp
  · intro hclean hne
    have hhead := head_of_clean r.URL.Path hclean
    simp only [hclean, ne_eq, not_true_eq_false, and_false, if_false, hne, hhead, if_true,
      true_and]
    exact ⟨rfl, rfl⟩
  · intro hm hclean
    simp [hm, hclean]
  · intro h hp
    rw [hp, hc] at h
    simp at h

/-- C9, amended, at `GET /remcfgx`. -/
theorem dispatch_of_registered_routes_witness :
    registerHandlers ServeMux.empty = some routes ∧
    routes.Handler sampleLib (sampleRequest "/remcfgx" "") = (.handler .handleDefault, "/") ∧
    (runHandler sampleLib Globals.default .handleDefault (sampleRequest "/remcfgx" "")
      (Sys.init ∅)).1.status = some 404 ∧
    (runHandler sampleLib Globals.default .handleDefault (sampleRequest "/remcfgx" "")
      (Sys.init ∅)).1.body = "unknown" :=
  ⟨registerHandlers_empty,
    (dispatch_of_registered_routes sampleLib Globals.default routes
      (sampleRequest "/remcfgx" "") (Sys.init ∅) registerHandlers_empty).2.1
      (by decide) (by decide)⟩

end Configserv
